import Mathlib

/-!
Shallow embedding of the Vizio TV session manager (`src/tv.py`, `src/const.py`,
`intg-viziotv/media_player.py`).

Modelling conventions:
* Machine state of one `VizioTv` instance is the structure `TvState`.  The
  connection handle `self._vizio` is modelled by the boolean `vizio`
  (present/absent); task handles (`_connect_task`, `_polling`,
  `_power_on_task`) are booleans recording presence.
* Wall-clock time (`datetime.utcnow()`) is a `Nat` passed explicitly as `now`;
  the absolute deadlines `_end_of_power_off` / `_end_of_power_on` are
  `Option Nat`.
* Every vendor-device call that can raise is an `Except Unit _` argument
  supplied by the environment (the device behaviour); a `.error` value is a
  raised exception at that call site.  An operation whose Python code can let
  an exception propagate to the caller has an `Except`-typed result; the
  error payload records the vendor calls issued before the raise.
* `events.emit(...)` is modelled by an emitted-`Event` list in the result, in
  emission order.  Vendor calls issued are collected in a `VendorCall` list.
* Cancellation (`asyncio.CancelledError`) is external and out of the model.
-/

/-- `PowerState` of `const.py`. -/
inductive PowerState
  | OFF
  | ON
  | STANDBY
deriving DecidableEq, Repr

/-- A partial attribute update, the dict passed to `events.emit(EVENTS.UPDATE, id, update)`:
keys among `state`, `source`, `source_list`; `none` means the key is absent. -/
structure Update where
  state : Option PowerState
  source : Option String
  source_list : Option (List String)
deriving DecidableEq, Repr

def mkUpd (s : Option PowerState) (src : Option String) (sl : Option (List String)) : Update :=
  { state := s, source := src, source_list := sl }

/-- The events of `EVENTS` in `const.py` that the session manager emits
(the device-id payload is constant per session and omitted). -/
inductive Event
  | connecting
  | connected
  | disconnected
  | update (u : Update)
deriving DecidableEq, Repr

/-- Vendor-layer calls issued to the device client / wake sender. -/
inductive VendorCall
  | powOn
  | powOff
  | getPowerState
  | remoteKey (code : String)
  | setInput (name : String)
  | launchApp (name : String)
  | magicPacket (mac : String)
deriving DecidableEq, Repr

/-- The mutable state of one `VizioTv` instance (`VizioTv.__init__`). -/
structure TvState where
  is_on : Bool
  is_connected : Bool
  vizio : Bool
  connect_task : Bool
  polling : Bool
  power_on_task : Bool
  end_of_power_off : Option Nat
  end_of_power_on : Option Nat
  active_source : String
  input_list : List String
  app_list : List String
  mac_address : String
  mac_address2 : String
deriving DecidableEq, Repr

/-- The fresh state built by `VizioTv.__init__` (device MACs from config). -/
def initState (mac mac2 : String) : TvState :=
  { is_on := false, is_connected := false, vizio := false, connect_task := false
  , polling := false, power_on_task := false, end_of_power_off := none
  , end_of_power_on := none, active_source := "", input_list := [], app_list := []
  , mac_address := mac, mac_address2 := mac2 }

/-- `VizioTv.power_off_in_progress`: the power-off deadline exists and lies
strictly in the future (`self._end_of_power_off > datetime.utcnow()`). -/
def power_off_in_progress (st : TvState) (now : Nat) : Bool :=
  match st.end_of_power_off with
  | some d => decide (now < d)
  | none => false

/-- `VizioTv.power_on_in_progress`. -/
def power_on_in_progress (st : TvState) (now : Nat) : Bool :=
  match st.end_of_power_on with
  | some d => decide (now < d)
  | none => false

/-- Lexicographic comparison of code-point sequences: the ordering Python's
`sorted` applies to `str` values. -/
def lexLe : List Char → List Char → Bool
  | [], _ => true
  | _ :: _, [] => false
  | a :: as, b :: bs =>
    if a.toNat < b.toNat then true
    else if b.toNat < a.toNat then false
    else lexLe as bs

/-- Python string ordering lifted to `String`. -/
def strLe (a b : String) : Bool := lexLe a.data b.data

theorem lexLe_total : ∀ a b, lexLe a b = true ∨ lexLe b a = true
  | [], _ => Or.inl rfl
  | _ :: _, [] => Or.inr rfl
  | x :: xs, y :: ys => by
    simp only [lexLe]
    rcases Nat.lt_trichotomy x.toNat y.toNat with h | h | h
    · left; rw [if_pos h]
    · rw [h]
      simp only [Nat.lt_irrefl, if_neg (Nat.lt_irrefl _)]
      exact lexLe_total xs ys
    · right; rw [if_pos h]

theorem lexLe_trans : ∀ a b c, lexLe a b = true → lexLe b c = true → lexLe a c = true
  | [], _, _ => fun _ _ => rfl
  | _ :: _, [], _ => fun h _ => by simp [lexLe] at h
  | _ :: _, _ :: _, [] => fun _ h => by simp [lexLe] at h
  | x :: xs, y :: ys, z :: zs => by
    simp only [lexLe]
    intro h1 h2
    by_cases hxy : x.toNat < y.toNat
    · by_cases hyz : y.toNat < z.toNat
      · rw [if_pos (by omega)]
      · by_cases hzy : z.toNat < y.toNat
        · rw [if_neg hyz, if_pos hzy] at h2; simp at h2
        · rw [if_pos (by omega)]
    · by_cases hyx : y.toNat < x.toNat
      · rw [if_neg hxy, if_pos hyx] at h1; simp at h1
      · by_cases hyz : y.toNat < z.toNat
        · rw [if_pos (by omega)]
        · by_cases hzy : z.toNat < y.toNat
          · rw [if_neg hyz, if_pos hzy] at h2; simp at h2
          · rw [if_neg hxy, if_neg hyx] at h1
            rw [if_neg hyz, if_neg hzy] at h2
            rw [if_neg (by omega), if_neg (by omega)]
            exact lexLe_trans xs ys zs h1 h2

instance : IsTotal String fun a b => strLe a b = true :=
  ⟨fun a b => lexLe_total a.data b.data⟩

instance : IsTrans String fun a b => strLe a b = true :=
  ⟨fun a b c => lexLe_trans a.data b.data c.data⟩

/-- `VizioTv.source_list`: `sorted(self._input_list + list(self._app_list.keys()))`
(Python `sorted` = stable ascending sort of the concatenation under `strLe`). -/
def source_list (st : TvState) : List String :=
  List.insertionSort (fun a b => strLe a b = true) (st.input_list ++ st.app_list)

/-- `VizioTv.connect`: if already connected do nothing; otherwise, if no
connect task is running, emit `CONNECTING` and schedule `_connect_setup`. -/
def connect (st : TvState) : TvState × List Event :=
  if st.vizio && st.is_connected then (st, [])
  else if !st.connect_task then ({ st with connect_task := true }, [Event.connecting])
  else (st, [])

/-- `VizioTv.check_connection_and_reconnect`: trigger `connect()` when no live
connection exists; returns immediately (connect only schedules a task). -/
def check_connection_and_reconnect (st : TvState) : TvState × List Event :=
  if !st.vizio || !st.is_connected then connect st else (st, [])

/-- `VizioTv.disconnect(continue_polling)`: optionally stop the poll task,
cancel and clear the connect task, clear the handle, mark not-connected,
emit `DISCONNECTED`. -/
def disconnect (st : TvState) (continue_polling : Bool) : TvState × List Event :=
  let st1 := if !continue_polling then { st with polling := false } else st
  let st2 := { st1 with connect_task := false, vizio := false, is_connected := false }
  (st2, [Event.disconnected])

/-- `VizioTv._update_input_list`: when connected, read the input list; a
non-empty result replaces `_input_list` and emits
`UPDATE{source_list := _input_list}` (just the inputs, not the apps).
Exceptions are caught and logged. -/
def update_input_list (st : TvState) (inputs : Except Unit (List String)) :
    TvState × List Event :=
  if st.vizio && st.is_connected then
    match inputs with
    | .ok l =>
      if l ≠ [] then
        ({ st with input_list := l }, [Event.update (mkUpd none none (some l))])
      else (st, [])
    | .error _ => (st, [])
  else (st, [])

/-- `VizioTv._update_app_list`: when connected, read the app list; a non-empty
result builds the dict `{app: app for app in apps}` (keys = first occurrences)
and emits `UPDATE{source_list := self.source_list}`.  Exceptions are caught. -/
def update_app_list (st : TvState) (apps : Except Unit (List String)) :
    TvState × List Event :=
  if st.vizio && st.is_connected then
    match apps with
    | .ok l =>
      if l ≠ [] then
        let st' := { st with app_list := l.eraseDups }
        (st', [Event.update (mkUpd none none (some (source_list st')))])
      else (st, [])
    | .error _ => (st, [])
  else (st, [])

/-- `VizioTv._update_current_input`: when connected, read the current input; a
truthy result replaces `_active_source` and emits `UPDATE{source}` (no
comparison with the cached value).  Exceptions are caught and logged. -/
def update_current_input (st : TvState) (resp : Except Unit (Option String)) :
    TvState × List Event :=
  if st.vizio && st.is_connected then
    match resp with
    | .ok (some s) =>
      if s ≠ "" then
        ({ st with active_source := s }, [Event.update (mkUpd none (some s) none)])
      else (st, [])
    | .ok none => (st, [])
    | .error _ => (st, [])
  else (st, [])

/-- `VizioTv._update_current_app`: as `_update_current_input` but the sentinel
strings `"Unknown App"` and `"No App Running"` are ignored. -/
def update_current_app (st : TvState) (resp : Except Unit (Option String)) :
    TvState × List Event :=
  if st.vizio && st.is_connected then
    match resp with
    | .ok (some s) =>
      if s ≠ "" && s ≠ "Unknown App" && s ≠ "No App Running" then
        ({ st with active_source := s }, [Event.update (mkUpd none (some s) none)])
      else (st, [])
    | .ok none => (st, [])
    | .error _ => (st, [])
  else (st, [])

/-- `VizioTv._connect_setup`: run `_connect` (create the handle, then probe
`get_power_state` once; a probe exception tears the session down and
re-raises), on success mark `is_on := true` and emit `UPDATE{state=ON}`
(the not-alive branch of the source is translated as written; after a
successful `_connect` its condition is always true), on exception clear the
handle; then — unconditionally — emit `CONNECTED`, sleep, start polling, and
run the one-time input-list and app-list refreshes. -/
def connect_setup (st : TvState) (probe : Except Unit Bool)
    (inputs apps : Except Unit (List String)) : TvState × List Event :=
  let stv := { st with vizio := true }
  let (st1, ev1) :=
    match probe with
    | .ok p =>
      let stc := { stv with is_connected := true, is_on := p }
      if stc.vizio && stc.is_connected then
        ({ stc with is_on := true }, [Event.update (mkUpd (some PowerState.ON) none none)])
      else
        let (std, evd) := disconnect stc true
        (std, Event.update (mkUpd (some PowerState.OFF) none none) :: evd)
    | .error _ => ({ stv with is_connected := false, vizio := false }, [])
  let ev2 := ev1 ++ [Event.connected]
  let st3 := { st1 with polling := true }
  let (st4, ev4) := update_input_list st3 inputs
  let (st5, ev5) := update_app_list st4 apps
  (st5, ev2 ++ ev4 ++ ev5)

/-- `VIZIO_KEY_MAPPING` of `const.py` as an association list. -/
def VIZIO_KEY_MAPPING : List (String × String) :=
  [ ("VOLUME_UP", "VOLUME_UP"), ("VOLUME_DOWN", "VOLUME_DOWN"), ("MUTE", "MUTE")
  , ("POWER", "POWER"), ("UP", "UP"), ("DOWN", "DOWN"), ("LEFT", "LEFT")
  , ("RIGHT", "RIGHT"), ("OK", "OK"), ("BACK", "BACK"), ("HOME", "HOME")
  , ("MENU", "MENU"), ("INFO", "INFO"), ("GUIDE", "GUIDE"), ("ENTER", "ENTER")
  , ("EXIT", "EXIT"), ("PLAY", "PLAY"), ("PAUSE", "PAUSE"), ("STOP", "STOP")
  , ("FORWARD", "FORWARD"), ("REWIND", "REWIND"), ("RECORD", "RECORD")
  , ("CHANNEL_UP", "CH_UP"), ("CHANNEL_DOWN", "CH_DOWN"), ("PREVIOUS", "PREVIOUS")
  , ("0", "0"), ("1", "1"), ("2", "2"), ("3", "3"), ("4", "4"), ("5", "5")
  , ("6", "6"), ("7", "7"), ("8", "8"), ("9", "9") ]

/-- `VizioTv.send_key`: best-effort reconnect, bail out when not connected,
map the key (dropping every `"KEY_"` occurrence), forward a mapped key to the
device's remote call with the exception caught and logged, and drop unmapped
keys with a warning.  The result is `Except`-typed to make "no exception
escapes" a statement rather than a typing accident. -/
def send_key (st : TvState) (key : String) (remoteResp : Except Unit Unit) :
    Except (List VendorCall) (TvState × List Event × List VendorCall) :=
  let (st1, ev1) := check_connection_and_reconnect st
  if !st1.vizio || !st1.is_connected then .ok (st1, ev1, [])
  else
    match VIZIO_KEY_MAPPING.lookup (key.replace "KEY_" "") with
    | some code =>
      match remoteResp with
      | .ok _ => .ok (st1, ev1, [VendorCall.remoteKey code])
      | .error _ => .ok (st1, ev1, [VendorCall.remoteKey code])
    | none => .ok (st1, ev1, [])

/-- `VizioTv.launch_app`: no-op while a power-off is in progress; best-effort
reconnect; HDMI-style names go through `set_input`, known app names through
`launch_app`; either path updates the active source and emits `UPDATE{source}`
only on success; vendor failures are caught and logged. -/
def launch_app (st : TvState) (now : Nat) (app_id app_name : Option String)
    (setInputResp launchResp : Except Unit Unit) :
    Except (List VendorCall) (TvState × List Event × List VendorCall) :=
  let _ := app_id
  if power_off_in_progress st now then .ok (st, [], [])
  else
    let (st1, ev1) := check_connection_and_reconnect st
    if !st1.vizio || !st1.is_connected then .ok (st1, ev1, [])
    else
      match app_name with
      | none => .ok (st1, ev1, [])
      | some name =>
        if name.startsWith "HDMI" then
          match setInputResp with
          | .ok _ =>
            .ok ({ st1 with active_source := name },
                 ev1 ++ [Event.update (mkUpd none (some name) none)],
                 [VendorCall.setInput name])
          | .error _ => .ok (st1, ev1, [VendorCall.setInput name])
        else if st1.app_list.contains name then
          match launchResp with
          | .ok _ =>
            .ok ({ st1 with active_source := name },
                 ev1 ++ [Event.update (mkUpd none (some name) none)],
                 [VendorCall.launchApp name])
          | .error _ => .ok (st1, ev1, [VendorCall.launchApp name])
        else .ok (st1, ev1, [])

/-- `VizioTv.toggle_power`: if a power-off is in progress, issue `pow_on()`
when a handle exists — this call is NOT wrapped in `try`, so a raised
exception propagates (`.error`, carrying the calls made before the raise) —
then clear the power-off deadline, schedule the async `power_on` task, emit
`UPDATE{state=ON}` and return (note: `_is_on` is not assigned here).  If a
power-on is in progress, do nothing.  Otherwise resolve the target (toggle =
negation of `_is_on`); target ON when already connected-and-on just re-emits
`UPDATE{state=ON}`, else sets a 15-second power-on deadline, schedules
`power_on`, and optimistically sets `is_on := true` while emitting an empty
`UPDATE{}`; target OFF issues `pow_off()` when connected (its exception is
caught and logged), sets a 65-second power-off deadline, sets
`is_on := false`, and emits `UPDATE{state=OFF}`. -/
def toggle_power (st : TvState) (now : Nat) (power : Option Bool)
    (powOnFails : Bool) (powOffFails : Bool) :
    Except (List VendorCall) (TvState × List Event × List VendorCall) :=
  if power_off_in_progress st now then
    if st.vizio then
      if powOnFails then .error [VendorCall.powOn]
      else
        .ok ({ st with end_of_power_off := none, power_on_task := true },
             [Event.update (mkUpd (some PowerState.ON) none none)],
             [VendorCall.powOn])
    else
      .ok ({ st with end_of_power_off := none, power_on_task := true },
           [Event.update (mkUpd (some PowerState.ON) none none)], [])
  else if power_on_in_progress st now then
    .ok (st, [], [])
  else
    let p := power.getD (!st.is_on)
    if p then
      if st.vizio && st.is_connected && st.is_on then
        .ok ({ st with is_on := true },
             [Event.update (mkUpd (some PowerState.ON) none none)], [])
      else
        .ok ({ st with end_of_power_on := some (now + 15), power_on_task := true, is_on := true },
             [Event.update (mkUpd none none none)], [])
    else
      let calls := if st.vizio && st.is_connected then [VendorCall.powOff] else []
      let _ := powOffFails
      .ok ({ st with end_of_power_off := some (now + 65), is_on := false },
           [Event.update (mkUpd (some PowerState.OFF) none none)], calls)

/-- Environment behaviour for one iteration of the wake loop of
`VizioTv.power_on`: the result of the `get_power_state` probe, and the value
the interleaved tasks (poll loop / scheduled connect) leave in `self._is_on`
by the time the iteration re-checks it after `check_connection_and_reconnect`
(`none` = the environment leaves `_is_on` untouched). -/
structure PowerOnIter where
  probe : Except Unit Bool
  onAfterReconnect : Option Bool

/-- Trace record of one executed wake-loop iteration: the MACs that received a
magic packet and whether the power state was probed. -/
structure IterRec where
  macs : List String
  probed : Bool
deriving DecidableEq, Repr

/-- The MACs a wake-loop iteration sends to: `self._device.mac_address`
unconditionally (the loop is only entered when it is configured), plus
`mac_address2` when configured. -/
def configuredMacs (st : TvState) : List String :=
  st.mac_address :: (if st.mac_address2 ≠ "" then [st.mac_address2] else [])

/-- The `for i in range(7)` wake loop of `VizioTv.power_on` with explicit
fuel: each iteration sends a magic packet to every configured MAC (failures
caught), sleeps 2 seconds, probes `get_power_state` when a handle exists
(breaking with `is_on := true` on a positive answer, swallowing exceptions),
then runs `check_connection_and_reconnect()` — after which the environment
may have rewritten `_is_on` — and breaks when `_is_on` is true.
Returns (final state, broke-early flag, per-iteration trace, emitted events). -/
def wake_loop (oracle : Nat → PowerOnIter) : Nat → Nat → TvState →
    TvState × Bool × List IterRec × List Event
  | _, 0, st => (st, false, [], [])
  | i, fuel + 1, st =>
    let it := oracle i
    let rec0 : IterRec := { macs := configuredMacs st, probed := st.vizio }
    let probeOn := st.vizio && (match it.probe with | .ok b => b | .error _ => false)
    if probeOn then
      ({ st with is_on := true }, true, [rec0], [])
    else
      let c := check_connection_and_reconnect st
      let st2 :=
        match it.onAfterReconnect with
        | some b => { c.1 with is_on := b }
        | none => c.1
      if st2.is_on then (st2, true, [rec0], c.2)
      else
        let r := wake_loop oracle (i + 1) fuel st2
        (r.1, r.2.1, rec0 :: r.2.2.1, c.2 ++ r.2.2.2)

/-- The final `update` dict of `VizioTv.power_on` on the wake path: `state=ON`
when the loop broke early, overwritten with `state=OFF` when `_is_on` is
still false (`if not self._is_on: update["state"] = OFF`). -/
def powerOnFinalUpd (r : TvState × Bool × List IterRec × List Event) : Update :=
  let u := if r.2.1 then mkUpd (some PowerState.ON) none none else mkUpd none none none
  if !r.1.is_on then { u with state := some PowerState.OFF } else u

/-- `VizioTv.power_on` (the async power-on sequence): first try the vendor
`pow_on()` when a handle exists — on success mark on, emit `UPDATE{state=ON}`
and return; on failure (caught, logged) or without a handle fall back to the
wake loop when `mac_address` is configured; the final update is
`powerOnFinalUpd`.  Returns (final state, emitted events, wake-loop trace). -/
def power_on (st : TvState) (powOnResp : Except Unit Unit)
    (oracle : Nat → PowerOnIter) : TvState × List Event × List IterRec :=
  let apiResult : Option TvState :=
    if st.vizio then
      match powOnResp with
      | .ok _ => some { st with is_on := true }
      | .error _ => none
    else none
  match apiResult with
  | some st' => (st', [Event.update (mkUpd (some PowerState.ON) none none)], [])
  | none =>
    let r := if st.mac_address ≠ "" then wake_loop oracle 0 7 st else (st, false, [], [])
    (r.1, r.2.2.2 ++ [Event.update (powerOnFinalUpd r)], r.2.2.1)

/-- Device behaviour for one iteration of the poll loop. -/
structure PollResp where
  power : Except Unit Bool
  currentInput : Except Unit (Option String)
  currentApp : Except Unit (Option String)

/-- `self._poll_interval`, fixed to 10 seconds in `__init__`. -/
def poll_interval : Nat := 10

/-- One iteration of the `while True` body of `VizioTv._poll_worker`: when
connected, sample the power state (an exception here is caught by the
iteration-level `except`, leaving the state unchanged), emit `UPDATE{state}`
on change, and, when on, run the current-input and current-app refreshes
(which catch their own exceptions); when not connected, call `connect()`. -/
def poll_iter (st : TvState) (resp : PollResp) : TvState × List Event :=
  if st.vizio && st.is_connected then
    match resp.power with
    | .error _ => (st, [])
    | .ok p =>
      let (st1, ev1) :=
        if p != st.is_on then
          ({ st with is_on := p },
           [Event.update (mkUpd (some (if p then PowerState.ON else PowerState.OFF)) none none)])
        else (st, [])
      if st1.is_on then
        let (st2, ev2) := update_current_input st1 resp.currentInput
        let (st3, ev3) := update_current_app st2 resp.currentApp
        (st3, ev1 ++ ev2 ++ ev3)
      else (st1, ev1)
  else connect st

/-- `VizioTv._poll_worker` run for `n` iterations against an oracle stream of
device behaviours: each iteration is `poll_iter` followed by a sleep of
`poll_interval` seconds (recorded in the third component). -/
def poll_loop (st : TvState) (oracle : Nat → PollResp) :
    Nat → TvState × List Event × List Nat
  | 0 => (st, [], [])
  | n + 1 =>
    let (st1, ev1) := poll_iter st (oracle 0)
    let (st2, ev2, sleeps) := poll_loop st1 (fun k => oracle (k + 1)) n
    (st2, ev1 ++ ev2, poll_interval :: sleeps)

/-- The entity states the media-player reconciler maps to
(`ucapi.media_player.States`, restricted to the values it produces). -/
inductive EntityState
  | ON
  | OFF
deriving DecidableEq, Repr

/-- The attribute map returned by the reconciler. -/
structure EntityUpdate where
  state : Option EntityState
  source : Option String
  source_list : Option (List String)
deriving DecidableEq, Repr

/-- `VizioMediaPlayer.filter_changed_attributes`: map `state` to `States.ON`
exactly when the incoming value is `"ON"` (else `States.OFF`), and pass
`source` and `source_list` through.  The function receives no cached
attributes and performs no change detection. -/
def filter_changed_attributes (update : Update) : EntityUpdate :=
  { state := update.state.map (fun s => if s = PowerState.ON then EntityState.ON else EntityState.OFF)
  , source := update.source
  , source_list := update.source_list }

/-! ### Shared concrete states for concrete evaluations -/

/-- A connected, powered-on session with polling running (the state reached
after a successful connect attempt on a live TV). -/
def stOn : TvState :=
  { initState "aa:bb:cc:dd:ee:ff" "" with
    is_on := true, is_connected := true, vizio := true, polling := true }

/-- `stOn` with the active source already known to be `"HDMI1"`. -/
def stHdmi : TvState := { stOn with active_source := "HDMI1" }

/-- A poll-iteration device behaviour whose power-state sample answers `true`
and whose input/app samples raise. -/
def pollRespOn : PollResp :=
  { power := .ok true, currentInput := .error (), currentApp := .error () }

/-- A poll-iteration device behaviour raising at every call. -/
def pollRespErr : PollResp :=
  { power := .error (), currentInput := .error (), currentApp := .error () }

/-- A session whose stored app dictionary has a key equal to a stored input
name. -/
def stDupSource : TvState :=
  { initState "" "" with input_list := ["HDMI1"], app_list := ["HDMI1"] }

/-- The example session of the spec: inputs `["HDMI1","HDMI2"]` and apps
`{"Netflix": "Netflix"}`. -/
def stNetflix : TvState :=
  { initState "" "" with input_list := ["HDMI1", "HDMI2"], app_list := ["Netflix"] }

/-- A wake-loop environment in which the device never reports on and nothing
else runs: every probe answers `false` and the interleaved tasks never touch
`is_on` (no reconnect succeeds, so the poll loop never samples). -/
def idleOracleOff : Nat → PowerOnIter :=
  fun _ => { probe := Except.ok false, onAfterReconnect := none }

/-! ### Claim theorems -/

/-- C8 counterexample: when an app name coincides with an input name, the
derived `source_list` contains the element twice — `sorted(inputs + app_keys)`
concatenates before sorting and removes no duplicates, contradicting the
claim that no element appears twice. -/
theorem C8_counterexample :
    source_list stDupSource = ["HDMI1", "HDMI1"] ∧
    ¬ List.Nodup (source_list stDupSource) := by
  constructor
  · decide
  · decide

/-- C8 amended: for every stored input list and app mapping the derived
`source_list` is a sorted permutation of the concatenation of the input names
and the app names (duplicates kept, so an app name equal to an input name
appears twice); on the disjoint example `["HDMI1","HDMI2"]` with apps
`{"Netflix": "Netflix"}` it equals `["HDMI1","HDMI2","Netflix"]`. -/
theorem C8_amended_thm :
    (∀ st : TvState,
      List.Sorted (fun a b => strLe a b = true) (source_list st) ∧
      List.Perm (source_list st) (st.input_list ++ st.app_list)) ∧
    source_list stNetflix = ["HDMI1", "HDMI2", "Netflix"] := by
  refine ⟨fun st => ⟨?_, ?_⟩, by decide⟩
  · exact List.sorted_insertionSort _ _
  · exact List.perm_insertionSort _ _

/-- C9: the poll loop never terminates because of a device-client error — for
every oracle of device behaviours (including ones raising at every call) the
loop performs all `n` iterations, sleeping the fixed 10-second interval after
each one; moreover an exception in the power-state sample of a connected
iteration is swallowed, leaving the state unchanged and emitting nothing. -/
theorem C9_thm :
    (∀ (st : TvState) (oracle : Nat → PollResp) (n : Nat),
      (poll_loop st oracle n).2.2 = List.replicate n poll_interval) ∧
    (∀ (st : TvState) (resp : PollResp), st.vizio = true → st.is_connected = true →
      resp.power = Except.error () → poll_iter st resp = (st, [])) := by
  constructor
  · intro st oracle n
    induction n generalizing st oracle with
    | zero => rfl
    | succ n ih => simp [poll_loop, ih, List.replicate_succ]
  · intro st resp hv hc hp
    simp [poll_iter, hv, hc, hp]

/-- C9 witness: a concrete two-iteration run against an all-raising oracle
performs both iterations with two 10-second sleeps, and one connected
iteration whose power sample raises is a no-op. -/
theorem C9_witness :
    (poll_loop stOn (fun _ => pollRespErr) 2).2.2 = [10, 10] ∧
    poll_iter stOn pollRespErr = (stOn, []) :=
  ⟨C9_thm.1 stOn (fun _ => pollRespErr) 2,
   C9_thm.2 stOn pollRespErr rfl rfl rfl⟩

/-- C10: `disconnect` with the default `continue_polling = true` leaves the
poll-task handle exactly as it was while clearing the connection handle, the
connect task, and the connected flag; the surviving poll loop, finding no
connection on its next iteration, schedules a reconnect itself (`connect()`
sets the connect task and emits `CONNECTING`). -/
theorem C10_thm :
    ∀ (st : TvState) (resp : PollResp),
      ((disconnect st true).1.polling = st.polling) ∧
      ((disconnect st true).1.vizio = false) ∧
      ((disconnect st true).1.is_connected = false) ∧
      ((disconnect st true).2 = [Event.disconnected]) ∧
      ((poll_iter (disconnect st true).1 resp).1.connect_task = true) ∧
      (Event.connecting ∈ (poll_iter (disconnect st true).1 resp).2) := by
  intro st resp
  refine ⟨rfl, rfl, rfl, rfl, ?_, ?_⟩
  · simp [poll_iter, disconnect, connect]
  · simp [poll_iter, disconnect, connect]

/-- C1 counterexample: `toggle_power` invoked while a power-off is in progress
and a handle is present calls the device's `pow_on()` outside any `try`
block, so an exception raised there escapes to the caller — refuting the
claim that no vendor-layer exception ever escapes, and in particular its
`toggle_power` instance. -/
theorem C1_counterexample :
    toggle_power { stOn with end_of_power_off := some 100 } 50 (some true) true false =
      Except.error [VendorCall.powOn] := rfl

/-- C1 amended: no vendor-layer exception escapes `send_key` or `launch_app`
for any device behaviour, and none escapes `toggle_power` except the one
raised by the unguarded `pow_on()` call in its power-off-in-progress branch
(power-off in progress, handle present, `pow_on` raising); `connect`,
`disconnect` and `check_connection_and_reconnect` perform no fallible vendor
call at all (their results are total by construction). -/
theorem C1_amended_thm :
    (∀ (st : TvState) (key : String) (r : Except Unit Unit),
      ∃ out, send_key st key r = Except.ok out) ∧
    (∀ (st : TvState) (now : Nat) (aid an : Option String) (r1 r2 : Except Unit Unit),
      ∃ out, launch_app st now aid an r1 r2 = Except.ok out) ∧
    (∀ (st : TvState) (now : Nat) (power : Option Bool) (pOnF pOffF : Bool),
      ¬(power_off_in_progress st now = true ∧ st.vizio = true ∧ pOnF = true) →
      ∃ out, toggle_power st now power pOnF pOffF = Except.ok out) := by
  refine ⟨?_, ?_, ?_⟩
  · intro st key r
    unfold send_key
    repeat' split
    all_goals exact ⟨_, rfl⟩
  · intro st now aid an r1 r2
    unfold launch_app
    repeat' split
    all_goals exact ⟨_, rfl⟩
  · intro st now power pOnF pOffF h
    unfold toggle_power
    split
    · rename_i hoff
      split
      · rename_i hviz
        split
        · rename_i hfail
          exact absurd ⟨hoff, hviz, hfail⟩ h
        · exact ⟨_, rfl⟩
      · exact ⟨_, rfl⟩
    · split
      · exact ⟨_, rfl⟩
      · dsimp only
        split
        · split
          · exact ⟨_, rfl⟩
          · exact ⟨_, rfl⟩
        · exact ⟨_, rfl⟩

/-- C1 witness: concrete instances — an unmapped-key `send_key` with a raising
remote call, a `launch_app` with a raising `set_input`, and a `toggle_power`
during an active power-off window whose `pow_on` succeeds. -/
theorem C1_witness :
    (∃ out, send_key stOn "KEY_HOME" (Except.error ()) = Except.ok out) ∧
    (∃ out, launch_app stOn 0 none (some "HDMI1") (Except.error ()) (Except.ok ()) =
      Except.ok out) ∧
    (∃ out, toggle_power { stOn with end_of_power_off := some 100 } 50 (some true) false false =
      Except.ok out) :=
  ⟨C1_amended_thm.1 stOn "KEY_HOME" (Except.error ()),
   C1_amended_thm.2.1 stOn 0 none (some "HDMI1") (Except.error ()) (Except.ok ()),
   C1_amended_thm.2.2 { stOn with end_of_power_off := some 100 } 50 (some true) false false
     (by decide)⟩

/-- C2 counterexample: a connect attempt whose liveness probe raises still
emits `CONNECTED` and still starts the poll loop (the emission and
`_start_polling` sit after the `try/except/finally`, unconditionally), and a
connect attempt whose probe answers `false` (negative probe) still marks the
session connected and on — refuting both the "exactly when it succeeds" and
the failure-branch parts of the claim. -/
theorem C2_counterexample :
    connect_setup (initState "" "") (Except.error ()) (Except.error ()) (Except.error ()) =
      ({ initState "" "" with polling := true }, [Event.connected]) ∧
    (connect_setup (initState "" "") (Except.ok false) (Except.error ()) (Except.error ())).1.is_on
      = true ∧
    (connect_setup (initState "" "") (Except.ok false) (Except.error ()) (Except.error ())).1.is_connected
      = true :=
  ⟨rfl, rfl, rfl⟩

/-- Helper: the one-time input-list refresh never changes the connection
flags, the power flag, or the poll-task handle. -/
theorem update_input_list_fields (st : TvState) (i : Except Unit (List String)) :
    (update_input_list st i).1.is_connected = st.is_connected ∧
    (update_input_list st i).1.is_on = st.is_on ∧
    (update_input_list st i).1.polling = st.polling ∧
    (update_input_list st i).1.vizio = st.vizio := by
  unfold update_input_list
  repeat' split
  all_goals simp

/-- Helper: the one-time app-list refresh never changes the connection flags,
the power flag, or the poll-task handle. -/
theorem update_app_list_fields (st : TvState) (i : Except Unit (List String)) :
    (update_app_list st i).1.is_connected = st.is_connected ∧
    (update_app_list st i).1.is_on = st.is_on ∧
    (update_app_list st i).1.polling = st.polling ∧
    (update_app_list st i).1.vizio = st.vizio := by
  unfold update_app_list
  repeat' split
  all_goals simp

/-- Helper: shape of a connect attempt whose probe answers (with either
value): the session is marked connected and on, polling is turned on, the
first event is `UPDATE{state=ON}` followed by `CONNECTED`, and the two list
refreshes run on the connected state. -/
theorem connect_setup_ok (st : TvState) (b : Bool) (inputs apps : Except Unit (List String)) :
    connect_setup st (Except.ok b) inputs apps =
      ((update_app_list (update_input_list { st with vizio := true, is_connected := true, is_on := true, polling := true } inputs).1 apps).1,
        [Event.update (mkUpd (some PowerState.ON) none none), Event.connected] ++
          (update_input_list { st with vizio := true, is_connected := true, is_on := true, polling := true } inputs).2 ++
          (update_app_list (update_input_list { st with vizio := true, is_connected := true, is_on := true, polling := true } inputs).1 apps).2) :=
  rfl

/-- Helper: shape of a connect attempt whose probe raises: handle cleared,
not-connected, but polling started and `CONNECTED` still emitted. -/
theorem connect_setup_err (st : TvState) (inputs apps : Except Unit (List String)) :
    connect_setup st (Except.error ()) inputs apps =
      ({ st with vizio := false, is_connected := false, polling := true }, [Event.connected]) :=
  rfl

/-- C2 amended: a connect attempt emits `CONNECTED` unconditionally at its
end and always starts the poll loop, whatever the probe did; when the probe
answers (positively or negatively) the attempt marks connected and sets
`is_on := true` regardless of the answer, emitting `UPDATE{state=ON}` first;
when the probe raises, the attempt marks not-connected and clears the handle
but still emits `CONNECTED` (and nothing else) and still starts polling. -/
theorem C2_amended_thm :
    ∀ (st : TvState) (probe : Except Unit Bool) (inputs apps : Except Unit (List String)),
      (Event.connected ∈ (connect_setup st probe inputs apps).2) ∧
      ((connect_setup st probe inputs apps).1.polling = true) ∧
      (∀ b, probe = Except.ok b →
        (connect_setup st probe inputs apps).1.is_connected = true ∧
        (connect_setup st probe inputs apps).1.is_on = true ∧
        (connect_setup st probe inputs apps).2.head? =
          some (Event.update (mkUpd (some PowerState.ON) none none))) ∧
      (probe = Except.error () →
        (connect_setup st probe inputs apps).1.is_connected = false ∧
        (connect_setup st probe inputs apps).1.vizio = false ∧
        (connect_setup st probe inputs apps).2 = [Event.connected]) := by
  intro st probe inputs apps
  cases probe with
  | ok b =>
    rw [connect_setup_ok]
    obtain ⟨hc4, ho4, hp4, -⟩ :=
      update_input_list_fields { st with vizio := true, is_connected := true, is_on := true, polling := true } inputs
    obtain ⟨hc5, ho5, hp5, -⟩ :=
      update_app_list_fields (update_input_list { st with vizio := true, is_connected := true, is_on := true, polling := true } inputs).1 apps
    refine ⟨by simp, ?_, ?_, by intro h; simp at h⟩
    · show (update_app_list (update_input_list { st with vizio := true, is_connected := true, is_on := true, polling := true } inputs).1 apps).1.polling = true
      rw [hp5, hp4]
    · intro b2 _
      refine ⟨?_, ?_, by rfl⟩
      · show (update_app_list (update_input_list { st with vizio := true, is_connected := true, is_on := true, polling := true } inputs).1 apps).1.is_connected = true
        rw [hc5, hc4]
      · show (update_app_list (update_input_list { st with vizio := true, is_connected := true, is_on := true, polling := true } inputs).1 apps).1.is_on = true
        rw [ho5, ho4]
  | error e =>
    rw [connect_setup_err]
    refine ⟨by simp, rfl, ?_, fun _ => ⟨rfl, rfl, rfl⟩⟩
    intro b2 h
    simp at h

/-- C2 witness: the components of the amended claim at concrete inputs — a
probe that answers `false` on a fresh session, and a raising probe. -/
theorem C2_witness :
    ((connect_setup (initState "" "") (Except.ok false) (Except.error ()) (Except.error ())).1.is_connected = true ∧
      (connect_setup (initState "" "") (Except.ok false) (Except.error ()) (Except.error ())).1.is_on = true ∧
      (connect_setup (initState "" "") (Except.ok false) (Except.error ()) (Except.error ())).2.head? =
        some (Event.update (mkUpd (some PowerState.ON) none none))) ∧
    ((connect_setup (initState "" "") (Except.error ()) (Except.error ()) (Except.error ())).1.is_connected = false ∧
      (connect_setup (initState "" "") (Except.error ()) (Except.error ()) (Except.error ())).1.vizio = false ∧
      (connect_setup (initState "" "") (Except.error ()) (Except.error ()) (Except.error ())).2 = [Event.connected]) :=
  ⟨(C2_amended_thm (initState "" "") (Except.ok false) (Except.error ()) (Except.error ())).2.2.1 false rfl,
   (C2_amended_thm (initState "" "") (Except.error ()) (Except.error ()) (Except.error ())).2.2.2 rfl⟩

/-- C3 counterexample: from the reachable state left by `toggle_power(false)`
at time 35 on a connected, powered-on session (power-off deadline 100), a
poll-loop iteration that samples the device still reporting power on sets
`is_on := true` while the deadline is still unexpired at time 50 — and this
is a poll iteration, not the reconciliation inside `toggle_power`, refuting
the claimed invariant. -/
theorem C3_counterexample :
    toggle_power stOn 35 (some false) false false =
      Except.ok ({ stOn with is_on := false, end_of_power_off := some 100 },
        [Event.update (mkUpd (some PowerState.OFF) none none)], [VendorCall.powOff]) ∧
    poll_iter { stOn with is_on := false, end_of_power_off := some 100 } pollRespOn =
      ({ stOn with end_of_power_off := some 100 },
        [Event.update (mkUpd (some PowerState.ON) none none)]) ∧
    ({ stOn with end_of_power_off := some 100 } : TvState).is_on = true ∧
    power_off_in_progress { stOn with end_of_power_off := some 100 } 50 = true :=
  ⟨rfl, rfl, rfl, rfl⟩

/-- C3 amended: the invariant "`is_on = true` never coexists with an
unexpired power-off deadline" is preserved by every `toggle_power`
transition (at the same instant), but it is not preserved by poll-loop
iterations, which copy the device's power sample into `is_on` without
consulting the power-off deadline. -/
theorem C3_amended_thm :
    ∀ (st : TvState) (now : Nat) (power : Option Bool) (pOnF pOffF : Bool)
      (st' : TvState) (ev : List Event) (calls : List VendorCall),
      ¬(st.is_on = true ∧ power_off_in_progress st now = true) →
      toggle_power st now power pOnF pOffF = Except.ok (st', ev, calls) →
      ¬(st'.is_on = true ∧ power_off_in_progress st' now = true) := by
  intro st now power pOnF pOffF st' ev calls hinv heq
  unfold toggle_power at heq
  split at heq
  · split at heq
    · split at heq
      · cases heq
      · simp only [Except.ok.injEq, Prod.mk.injEq] at heq
        obtain ⟨h1, -, -⟩ := heq
        subst h1
        simp [power_off_in_progress]
    · simp only [Except.ok.injEq, Prod.mk.injEq] at heq
      obtain ⟨h1, -, -⟩ := heq
      subst h1
      simp [power_off_in_progress]
  · rename_i hoff
    split at heq
    · simp only [Except.ok.injEq, Prod.mk.injEq] at heq
      obtain ⟨h1, -, -⟩ := heq
      subst h1
      exact hinv
    · dsimp only at heq
      split at heq
      · split at heq
        · simp only [Except.ok.injEq, Prod.mk.injEq] at heq
          obtain ⟨h1, -, -⟩ := heq
          subst h1
          intro hc
          exact hoff hc.2
        · simp only [Except.ok.injEq, Prod.mk.injEq] at heq
          obtain ⟨h1, -, -⟩ := heq
          subst h1
          intro hc
          exact hoff hc.2
      · simp only [Except.ok.injEq, Prod.mk.injEq] at heq
        obtain ⟨h1, -, -⟩ := heq
        subst h1
        intro hc
        simp at hc

/-- C3 witness: the amended preservation applied to `toggle_power(false)` on
a connected, on session with no pending window: the resulting state does not
violate the invariant at the call instant. -/
theorem C3_witness :
    ¬(({ stOn with end_of_power_off := some 65, is_on := false } : TvState).is_on = true ∧
      power_off_in_progress { stOn with end_of_power_off := some 65, is_on := false } 0 = true) :=
  C3_amended_thm stOn 0 (some false) false false _ _ _ (by decide) rfl

/-- C4 counterexample: `toggle_power` during an active power-off window with
no connection handle issues no power-on command (the `pow_on` call sits under
`if self._vizio`), and in no case does this branch assign `is_on = true` —
the resulting state still has `is_on = false` — refuting the "regardless ...
issues a power-on command" and the "sets is_on=true" parts of the claim. -/
theorem C4_counterexample :
    toggle_power { initState "" "" with end_of_power_off := some 100 } 50 (some false) false false =
      Except.ok ({ initState "" "" with power_on_task := true },
        [Event.update (mkUpd (some PowerState.ON) none none)], []) ∧
    ({ initState "" "" with power_on_task := true } : TvState).is_on = false :=
  ⟨rfl, rfl⟩

/-- C4 amended: during an active power-off window `toggle_power`, regardless
of the `power` argument, issues a power-on command only when a connection
handle exists (raising if it fails, see C1), clears the power-off deadline,
launches the asynchronous power-on task, emits exactly `UPDATE{state=ON}`,
and returns immediately — leaving `is_on` unchanged (turning it on is left to
the asynchronous task). -/
theorem C4_amended_thm :
    ∀ (st : TvState) (now : Nat) (power : Option Bool) (pOnF pOffF : Bool),
      power_off_in_progress st now = true →
      (st.vizio = true → pOnF = false) →
      toggle_power st now power pOnF pOffF =
        Except.ok ({ st with end_of_power_off := none, power_on_task := true },
          [Event.update (mkUpd (some PowerState.ON) none none)],
          if st.vizio then [VendorCall.powOn] else []) := by
  intro st now power pOnF pOffF hoff hok
  unfold toggle_power
  rw [if_pos hoff]
  by_cases hv : st.vizio = true
  · rw [if_pos hv, if_pos hv, if_neg (by simp [hok hv])]
  · rw [if_neg hv, if_neg hv]

/-- C4 witness: the amended claim at a concrete connected session in an
active power-off window with a succeeding `pow_on`. -/
theorem C4_witness :
    toggle_power { stOn with end_of_power_off := some 100 } 50 none false false =
      Except.ok ({ stOn with end_of_power_off := none, power_on_task := true },
        [Event.update (mkUpd (some PowerState.ON) none none)],
        if ({ stOn with end_of_power_off := some 100 } : TvState).vizio then [VendorCall.powOn] else []) := by
  have h := C4_amended_thm { stOn with end_of_power_off := some 100 } 50 none false false
    (by decide) (fun _ => rfl)
  exact h

/-- C5: while the power-off deadline is set and unexpired, no `toggle_power`
call (any argument, any outcome) issues the vendor power-off command again;
a `toggle_power(true)` inside the window (whose `pow_on` does not raise)
cancels the lockout — the resulting deadline is cleared — and emits exactly
`UPDATE{state=ON}`; and the call that opens the window from a connected
session issues `pow_off`, sets the deadline 65 seconds out, sets
`is_on := false` and emits `UPDATE{state=OFF}`. -/
theorem C5_thm :
    (∀ (st : TvState) (now : Nat) (pOnF pOffF : Bool),
      power_off_in_progress st now = false → power_on_in_progress st now = false →
      st.vizio = true → st.is_connected = true →
      toggle_power st now (some false) pOnF pOffF =
        Except.ok ({ st with end_of_power_off := some (now + 65), is_on := false },
          [Event.update (mkUpd (some PowerState.OFF) none none)], [VendorCall.powOff])) ∧
    (∀ (st : TvState) (now : Nat) (power : Option Bool) (pOnF pOffF : Bool),
      power_off_in_progress st now = true →
      (∀ st' ev calls, toggle_power st now power pOnF pOffF = Except.ok (st', ev, calls) →
        VendorCall.powOff ∉ calls) ∧
      (∀ calls, toggle_power st now power pOnF pOffF = Except.error calls →
        VendorCall.powOff ∉ calls)) ∧
    (∀ (st : TvState) (now : Nat) (pOnF pOffF : Bool),
      power_off_in_progress st now = true →
      (st.vizio = true → pOnF = false) →
      ∃ st' calls, toggle_power st now (some true) pOnF pOffF =
        Except.ok (st', [Event.update (mkUpd (some PowerState.ON) none none)], calls) ∧
        st'.end_of_power_off = none) := by
  refine ⟨?_, ?_, ?_⟩
  · intro st now pOnF pOffF hoff hon hv hc
    unfold toggle_power
    rw [if_neg (by simp [hoff]), if_neg (by simp [hon])]
    dsimp only
    rw [if_neg (by simp), if_pos (by simp [hv, hc])]
  · intro st now power pOnF pOffF hoff
    constructor
    · intro st' ev calls heq
      unfold toggle_power at heq
      rw [if_pos hoff] at heq
      split at heq
      · split at heq
        · cases heq
        · simp only [Except.ok.injEq, Prod.mk.injEq] at heq
          obtain ⟨-, -, h3⟩ := heq
          subst h3
          simp
      · simp only [Except.ok.injEq, Prod.mk.injEq] at heq
        obtain ⟨-, -, h3⟩ := heq
        subst h3
        simp
    · intro calls heq
      unfold toggle_power at heq
      rw [if_pos hoff] at heq
      split at heq
      · split at heq
        · simp only [Except.error.injEq] at heq
          subst heq
          simp
        · cases heq
      · cases heq
  · intro st now pOnF pOffF hoff hok
    rw [C4_amended_thm st now (some true) pOnF pOffF hoff hok]
    exact ⟨_, _, rfl, rfl⟩

/-- C7 counterexample: the poll-loop input refresh emits `UPDATE{source}`
even when the sampled input equals the cached active source (here both are
`"HDMI1"`, the state is unchanged, yet an event is emitted), and the
reconciler maps an incoming `state` key to an attribute without receiving or
consulting any cached value — so an unchanged attribute is re-emitted,
refuting the minimality claim. -/
theorem C7_counterexample :
    stHdmi.active_source = "HDMI1" ∧
    update_current_input stHdmi (Except.ok (some "HDMI1")) =
      (stHdmi, [Event.update (mkUpd none (some "HDMI1") none)]) ∧
    filter_changed_attributes (mkUpd (some PowerState.ON) none none) =
      { state := some EntityState.ON, source := none, source_list := none } :=
  ⟨rfl, rfl, rfl⟩

/-- C7 amended: the reconciler performs no change detection — it produces an
output attribute for exactly the keys present in the incoming update (state
mapped to `ON` iff the value is `ON`, else `OFF`; source and source list
passed through verbatim) — and the poll loop emits `UPDATE{source}` on every
successful non-empty input sample regardless of whether it changes the
active source, ignoring only the app sentinels "Unknown App" and
"No App Running". -/
theorem C7_amended_thm :
    (∀ u : Update,
      (filter_changed_attributes u).state.isSome = u.state.isSome ∧
      (filter_changed_attributes u).source = u.source ∧
      (filter_changed_attributes u).source_list = u.source_list) ∧
    ((filter_changed_attributes (mkUpd (some PowerState.ON) none none)).state = some EntityState.ON ∧
     (filter_changed_attributes (mkUpd (some PowerState.OFF) none none)).state = some EntityState.OFF ∧
     (filter_changed_attributes (mkUpd (some PowerState.STANDBY) none none)).state = some EntityState.OFF) ∧
    (∀ (st : TvState) (s : String), st.vizio = true → st.is_connected = true → s ≠ "" →
      update_current_input st (Except.ok (some s)) =
        ({ st with active_source := s }, [Event.update (mkUpd none (some s) none)])) ∧
    (∀ st : TvState,
      update_current_app st (Except.ok (some "Unknown App")) = (st, []) ∧
      update_current_app st (Except.ok (some "No App Running")) = (st, [])) := by
  refine ⟨?_, ⟨rfl, rfl, rfl⟩, ?_, ?_⟩
  · intro u
    obtain ⟨s, src, sl⟩ := u
    refine ⟨?_, rfl, rfl⟩
    cases s <;> rfl
  · intro st s hv hc hs
    unfold update_current_input
    rw [if_pos (by simp [hv, hc])]
    dsimp only
    rw [if_pos hs]
  · intro st
    constructor
    · unfold update_current_app
      split <;> simp
    · unfold update_current_app
      split <;> simp

/-- C7 witness: the amended claim instantiated on a connected session with a
fresh input sample `"HDMI2"` and on the sentinel app values. -/
theorem C7_witness :
    update_current_input stHdmi (Except.ok (some "HDMI2")) =
      ({ stHdmi with active_source := "HDMI2" }, [Event.update (mkUpd none (some "HDMI2") none)]) ∧
    update_current_app stHdmi (Except.ok (some "Unknown App")) = (stHdmi, []) :=
  ⟨C7_amended_thm.2.2.1 stHdmi "HDMI2" rfl rfl (by decide),
   (C7_amended_thm.2.2.2 stHdmi).1⟩

/-- Helper: `connect` never changes the configured wake MACs. -/
theorem connect_macs (st : TvState) :
    (connect st).1.mac_address = st.mac_address ∧
    (connect st).1.mac_address2 = st.mac_address2 := by
  unfold connect
  split
  · exact ⟨rfl, rfl⟩
  · split
    · exact ⟨rfl, rfl⟩
    · exact ⟨rfl, rfl⟩

/-- Helper: `check_connection_and_reconnect` never changes the wake MACs. -/
theorem check_reconnect_macs (st : TvState) :
    (check_connection_and_reconnect st).1.mac_address = st.mac_address ∧
    (check_connection_and_reconnect st).1.mac_address2 = st.mac_address2 := by
  unfold check_connection_and_reconnect
  split
  · exact connect_macs st
  · exact ⟨rfl, rfl⟩

/-- Helper: `configuredMacs` depends only on the two MAC fields. -/
theorem configuredMacs_congr (a b : TvState) (h1 : a.mac_address = b.mac_address)
    (h2 : a.mac_address2 = b.mac_address2) : configuredMacs a = configuredMacs b := by
  unfold configuredMacs
  rw [h1, h2]

/-- Helper: the state a wake-loop iteration passes to the next iteration has
the same configured MACs as the state it started from. -/
theorem wake_step_macs (st : TvState) (o : Option Bool) :
    configuredMacs
      (match o with
        | some b => { (check_connection_and_reconnect st).1 with is_on := b }
        | none => (check_connection_and_reconnect st).1) = configuredMacs st := by
  cases o with
  | some b =>
    exact configuredMacs_congr _ _ (check_reconnect_macs st).1 (check_reconnect_macs st).2
  | none =>
    exact configuredMacs_congr _ _ (check_reconnect_macs st).1 (check_reconnect_macs st).2

/-- Helper: structural facts about the wake loop — it runs at most `fuel`
iterations, every iteration wakes exactly the configured MACs, an early
break implies the power flag ended true, and a run without a break uses all
its fuel. -/
theorem wake_loop_spec (oracle : Nat → PowerOnIter) :
    ∀ (fuel i : Nat) (st : TvState),
      (wake_loop oracle i fuel st).2.2.1.length ≤ fuel ∧
      (∀ rec ∈ (wake_loop oracle i fuel st).2.2.1, rec.macs = configuredMacs st) ∧
      ((wake_loop oracle i fuel st).2.1 = true → (wake_loop oracle i fuel st).1.is_on = true) ∧
      ((wake_loop oracle i fuel st).2.1 = false → (wake_loop oracle i fuel st).2.2.1.length = fuel) := by
  intro fuel
  induction fuel with
  | zero =>
    intro i st
    refine ⟨by simp [wake_loop], by simp [wake_loop], by simp [wake_loop], by simp [wake_loop]⟩
  | succ n ih =>
    intro i st
    unfold wake_loop
    dsimp only
    split
    · refine ⟨by simp, ?_, fun _ => rfl, by simp⟩
      intro rec hrec
      simp at hrec
      subst hrec
      rfl
    · split
      · rename_i hst2on
        refine ⟨by simp, ?_, fun _ => hst2on, by simp⟩
        intro rec hrec
        simp at hrec
        subst hrec
        rfl
      · obtain ⟨ihlen, ihmacs, ihbroke, ihfull⟩ := ih (i + 1)
          (match (oracle i).onAfterReconnect with
            | some b => { (check_connection_and_reconnect st).1 with is_on := b }
            | none => (check_connection_and_reconnect st).1)
        refine ⟨?_, ?_, ?_, ?_⟩
        · simpa using Nat.succ_le_succ ihlen
        · intro rec hrec
          simp only [List.mem_cons] at hrec
          rcases hrec with h | h
          · subst h; rfl
          · rw [ihmacs rec h, wake_step_macs]
        · exact ihbroke
        · intro hb
          simpa using ihfull hb

/-- Helper: `connect` never changes the power flag. -/
theorem connect_is_on (st : TvState) : (connect st).1.is_on = st.is_on := by
  unfold connect
  split
  · rfl
  · split
    · rfl
    · rfl

/-- Helper: `check_connection_and_reconnect` never changes the power flag
(synchronously — it only schedules a connect task). -/
theorem check_reconnect_is_on (st : TvState) :
    (check_connection_and_reconnect st).1.is_on = st.is_on := by
  unfold check_connection_and_reconnect
  split
  · exact connect_is_on st
  · rfl

/-- Helper: when the device never reports on and the interleaved environment
never touches `is_on` (every probe answers other than `.ok true`, every
`onAfterReconnect` is `none`), a wake loop entered with `is_on = false`
never breaks and ends with `is_on = false`. -/
theorem wake_loop_never_on_idle (oracle : Nat → PowerOnIter)
    (h : ∀ j, (oracle j).probe ≠ Except.ok true ∧ (oracle j).onAfterReconnect = none) :
    ∀ (fuel i : Nat) (st : TvState), st.is_on = false →
      (wake_loop oracle i fuel st).2.1 = false ∧
      (wake_loop oracle i fuel st).1.is_on = false := by
  intro fuel
  induction fuel with
  | zero =>
    intro i st hoff
    exact ⟨rfl, hoff⟩
  | succ n ih =>
    intro i st hoff
    have hprobe : (match (oracle i).probe with | .ok b => b | .error _ => false) = false := by
      rcases hpr : (oracle i).probe with e | b
      · rfl
      · cases b
        · rfl
        · exact absurd hpr (h i).1
    unfold wake_loop
    dsimp only
    rw [hprobe, Bool.and_false]
    rw [if_neg (by simp)]
    rw [(h i).2]
    dsimp only
    have hst2 : (check_connection_and_reconnect st).1.is_on = false := by
      rw [check_reconnect_is_on]
      exact hoff
    rw [if_neg (by simp [hst2])]
    exact ih (i + 1) (check_connection_and_reconnect st).1 hst2

/-- Helper: a wake loop entered with `is_on = true`, when the interleaved
environment never touches `is_on`, breaks during its first iteration
(whatever the probe answers), ending on with a one-entry trace. -/
theorem wake_loop_entry_on (oracle : Nat → PowerOnIter)
    (h : ∀ j, (oracle j).onAfterReconnect = none) (fuel i : Nat) (st : TvState)
    (hon : st.is_on = true) (hfuel : fuel ≠ 0) :
    (wake_loop oracle i fuel st).2.1 = true ∧
    (wake_loop oracle i fuel st).1.is_on = true ∧
    (wake_loop oracle i fuel st).2.2.1.length = 1 := by
  cases fuel with
  | zero => exact absurd rfl hfuel
  | succ n =>
    unfold wake_loop
    dsimp only
    split
    · exact ⟨rfl, rfl, rfl⟩
    · rw [h i]
      dsimp only
      have hst2 : (check_connection_and_reconnect st).1.is_on = true := by
        rw [check_reconnect_is_on]
        exact hon
      rw [if_pos hst2]
      exact ⟨rfl, hst2, rfl⟩

/-- Helper: when no handle exists or the direct `pow_on` raises, and a wake
MAC is configured, `power_on` takes the wake-loop path. -/
theorem power_on_wake_shape (st : TvState) (p : Except Unit Unit)
    (oracle : Nat → PowerOnIter)
    (hyp : st.vizio = false ∨ p = Except.error ()) (hm : st.mac_address ≠ "") :
    power_on st p oracle =
      ((wake_loop oracle 0 7 st).1,
        (wake_loop oracle 0 7 st).2.2.2 ++
          [Event.update (powerOnFinalUpd (wake_loop oracle 0 7 st))],
        (wake_loop oracle 0 7 st).2.2.1) := by
  unfold power_on
  rcases hyp with hv | hp
  · rw [hv]
    simp only [Bool.false_eq_true, if_false]
    rw [if_pos hm]
  · subst hp
    dsimp only
    rw [ite_self]
    dsimp only
    rw [if_pos hm]

/-- Helper: the final power-on update is `state=OFF` when the loop neither
broke nor left the power flag on. -/
theorem powerOnFinalUpd_off (r : TvState × Bool × List IterRec × List Event)
    (h1 : r.1.is_on = false) (h2 : r.2.1 = false) :
    powerOnFinalUpd r = mkUpd (some PowerState.OFF) none none := by
  unfold powerOnFinalUpd
  rw [h2, h1]
  rfl

/-- C6 counterexample: the power-on sequence entered with the optimistic
`is_on = true` (which `toggle_power` sets before the task runs), a failing
direct `pow_on`, a configured MAC, and a device that never reports on (every
probe answers `false`) while nothing else touches `is_on`: the wake loop's
`if self._is_on: break` fires in the first iteration and the final (and
only) emitted event is `UPDATE{state=ON}` — not the claimed `UPDATE{state=OFF}`;
the earlier optimistic ON is never corrected. -/
theorem C6_counterexample :
    stOn.is_on = true ∧
    (power_on stOn (Except.error ()) idleOracleOff).2.2.length = 1 ∧
    (power_on stOn (Except.error ()) idleOracleOff).2.1 =
      [Event.update (mkUpd (some PowerState.ON) none none)] :=
  ⟨rfl, rfl, rfl⟩

/-- C6 amended: when the direct vendor power-on call is unavailable (no
handle) or fails, and a wake MAC is configured, the power-on sequence
performs at most 7 wake iterations, each sending a wake packet to every
configured MAC, and breaks early exactly when `is_on` is true at the
iteration's check (fewer than 7 iterations implies the final state is on).
The claimed final `UPDATE{state=OFF}` holds only when the sequence starts
with `is_on = false`: then, if the device never reports on and interleaved
tasks leave `is_on` untouched, all 7 iterations run and the final event is
`UPDATE{state=OFF}`.  Entered with the optimistic `is_on = true` still set
and untouched by interleaving, the loop instead breaks after its first
iteration and the final event is `UPDATE{state=ON}`. -/
theorem C6_amended_thm :
    ∀ (st : TvState) (p : Except Unit Unit) (oracle : Nat → PowerOnIter),
      (st.vizio = false ∨ p = Except.error ()) →
      st.mac_address ≠ "" →
      ((power_on st p oracle).2.2.length ≤ 7 ∧
       (∀ rec ∈ (power_on st p oracle).2.2, rec.macs = configuredMacs st) ∧
       ((power_on st p oracle).2.2.length < 7 → (power_on st p oracle).1.is_on = true) ∧
       (st.is_on = false →
        (∀ j, (oracle j).probe ≠ Except.ok true ∧ (oracle j).onAfterReconnect = none) →
         (power_on st p oracle).1.is_on = false ∧
         (power_on st p oracle).2.2.length = 7 ∧
         (power_on st p oracle).2.1.getLast? =
           some (Event.update (mkUpd (some PowerState.OFF) none none))) ∧
       (st.is_on = true →
        (∀ j, (oracle j).onAfterReconnect = none) →
         (power_on st p oracle).2.2.length = 1 ∧
         (power_on st p oracle).2.1.getLast? =
           some (Event.update (mkUpd (some PowerState.ON) none none)))) := by
  intro st p oracle hyp hm
  rw [power_on_wake_shape st p oracle hyp hm]
  dsimp only
  obtain ⟨hlen, hmacs, hbroke, hfull⟩ := wake_loop_spec oracle 7 0 st
  refine ⟨hlen, hmacs, ?_, ?_, ?_⟩
  · intro hlt
    cases hq : (wake_loop oracle 0 7 st).2.1 with
    | false => exact absurd (hfull hq) (by omega)
    | true => exact hbroke hq
  · intro hoff hidle
    obtain ⟨hb, hon⟩ := wake_loop_never_on_idle oracle hidle 7 0 st hoff
    refine ⟨hon, hfull hb, ?_⟩
    rw [powerOnFinalUpd_off _ hon hb]
    rw [List.getLast?_append_cons]
    rfl
  · intro hon hidle
    obtain ⟨hb, hon', hlen1⟩ := wake_loop_entry_on oracle hidle 7 0 st hon (by omega)
    refine ⟨hlen1, ?_⟩
    have hupd : powerOnFinalUpd (wake_loop oracle 0 7 st) =
        mkUpd (some PowerState.ON) none none := by
      unfold powerOnFinalUpd
      dsimp only
      rw [hb, hon']
      rfl
    rw [hupd, List.getLast?_append_cons]
    rfl

/-- C6 witness: both ends of the amended claim against the idle never-on
environment — entered off, all 7 iterations run and the last event is
`UPDATE{state=OFF}`; entered with the optimistic ON still set, one iteration
runs and the last event is `UPDATE{state=ON}`. -/
theorem C6_witness :
    ((power_on { stOn with is_on := false } (Except.error ()) idleOracleOff).1.is_on = false ∧
     (power_on { stOn with is_on := false } (Except.error ()) idleOracleOff).2.2.length = 7 ∧
     (power_on { stOn with is_on := false } (Except.error ()) idleOracleOff).2.1.getLast? =
       some (Event.update (mkUpd (some PowerState.OFF) none none))) ∧
    ((power_on stOn (Except.error ()) idleOracleOff).2.2.length = 1 ∧
     (power_on stOn (Except.error ()) idleOracleOff).2.1.getLast? =
       some (Event.update (mkUpd (some PowerState.ON) none none))) :=
  ⟨(C6_amended_thm { stOn with is_on := false } (Except.error ()) idleOracleOff
      (Or.inr rfl) (by decide)).2.2.2.1 rfl (fun _ => ⟨by simp [idleOracleOff], rfl⟩),
   (C6_amended_thm stOn (Except.error ()) idleOracleOff
      (Or.inr rfl) (by decide)).2.2.2.2 rfl (fun _ => rfl)⟩

/-- C5 witness: the three parts at concrete inputs — opening the lockout at
time 0 on a connected, on session; a second `toggle_power(false)` at time 50
inside the window issuing no `pow_off`; and a `toggle_power(true)` at time 50
clearing the deadline with a single `UPDATE{state=ON}`. -/
theorem C5_witness :
    toggle_power stOn 0 (some false) false false =
      Except.ok ({ stOn with end_of_power_off := some 65, is_on := false },
        [Event.update (mkUpd (some PowerState.OFF) none none)], [VendorCall.powOff]) ∧
    VendorCall.powOff ∉ ([VendorCall.powOn] : List VendorCall) ∧
    (∃ st' calls, toggle_power { stOn with end_of_power_off := some 100 } 50 (some true) false false =
      Except.ok (st', [Event.update (mkUpd (some PowerState.ON) none none)], calls) ∧
      st'.end_of_power_off = none) :=
  ⟨C5_thm.1 stOn 0 false false (by decide) (by decide) rfl rfl,
   (C5_thm.2.1 { stOn with end_of_power_off := some 100 } 50 (some false) false false
      (by decide)).1 _ _ _ rfl,
   C5_thm.2.2 { stOn with end_of_power_off := some 100 } 50 false false (by decide) (fun _ => rfl)⟩
